import Mathlib

/-!
Shallow embedding of `src/script.js` (Google Apps Script data shim).

Modelling conventions, fixed once for the whole file:
* JavaScript numbers are idealised as exact rationals plus the special
  values `+Infinity`, `-Infinity` and `NaN` (`JSNum`); binary64 rounding
  and overflow are not modelled, and `+0`/`-0` are conflated.
* A spreadsheet cell / JSON field value is a `Cell`: `undefined`, `null`,
  a boolean, a number or a string (objects and arrays never occur in the
  rows or bodies the claims speak about).
* The sheet named "graph" is `Option (List Row)`: `none` when the sheet is
  absent; `getDataRange().getValues()` on an existing empty sheet yields
  `[[""]]`, which `getValues` reproduces; `getLastRow()` is the number of
  content rows, i.e. the length of the list.
* `try`/`catch` around host calls is modelled by passing the outcome of
  the host interaction as an `Except String` value: `.error msg` is the
  host (or `JSON.parse`) throwing with message `msg`.
* `new Date(string)` is modelled for ISO `YYYY-MM-DD` strings (the only
  date format this repository ever writes); any other string is modelled
  as an invalid date (`NaN` time value).
-/

/-- An idealised JavaScript number: an exact rational, `+Infinity`,
`-Infinity` or `NaN`. -/
inductive JSNum where
  | fin (q : ℚ)
  | inf
  | ninf
  | nan
deriving DecidableEq, Repr

namespace JSNum

/-- Truthiness of a JS number: `0` and `NaN` are falsy. -/
def truthyNum : JSNum → Bool
  | .fin q => q ≠ 0
  | .nan => false
  | _ => true

/-- Whether the value is a finite number. -/
def isFinite : JSNum → Bool
  | .fin _ => true
  | _ => false

/-- The rational carried by a finite value, `0` otherwise. -/
def finPart : JSNum → ℚ
  | .fin q => q
  | _ => 0

/-- JS `<` on numbers: any comparison involving `NaN` is false. -/
def ltB : JSNum → JSNum → Bool
  | .nan, _ => false
  | _, .nan => false
  | .fin a, .fin b => a < b
  | .fin _, .inf => true
  | .fin _, .ninf => false
  | .inf, _ => false
  | .ninf, .ninf => false
  | .ninf, _ => true

/-- JS `+` on numbers. -/
def jsAdd : JSNum → JSNum → JSNum
  | .nan, _ => .nan
  | _, .nan => .nan
  | .inf, .ninf => .nan
  | .ninf, .inf => .nan
  | .inf, _ => .inf
  | _, .inf => .inf
  | .ninf, _ => .ninf
  | _, .ninf => .ninf
  | .fin a, .fin b => .fin (a + b)

/-- JS `/` on numbers (sign-of-zero subtleties are conflated with `+0`). -/
def jsDiv : JSNum → JSNum → JSNum
  | .nan, _ => .nan
  | _, .nan => .nan
  | .inf, .inf => .nan
  | .inf, .ninf => .nan
  | .ninf, .inf => .nan
  | .ninf, .ninf => .nan
  | .inf, .fin b => if b < 0 then .ninf else .inf
  | .ninf, .fin b => if b < 0 then .inf else .ninf
  | .fin _, .inf => .fin 0
  | .fin _, .ninf => .fin 0
  | .fin a, .fin b =>
      if b = 0 then (if a = 0 then .nan else if 0 < a then .inf else .ninf)
      else .fin (a / b)

end JSNum

/-- A JavaScript primitive value as it occurs in a sheet cell or a parsed
JSON body field: `undefined` doubles as "field absent" / out-of-range index. -/
inductive Cell where
  | undefined
  | jsNull
  | bool (b : Bool)
  | num (n : JSNum)
  | str (s : String)
deriving DecidableEq, Repr

/-- JS truthiness of a primitive value. -/
def truthy : Cell → Bool
  | .undefined => false
  | .jsNull => false
  | .bool b => b
  | .num n => n.truthyNum
  | .str s => s ≠ ""

/-- JS `a || b` on primitive values. -/
def jsOr (a b : Cell) : Cell := if truthy a then a else b

/-- JS `a || b` where both sides are numbers (used for `parseFloat(x) || 0`). -/
def jsNumOr (a b : JSNum) : JSNum := if a.truthyNum then a else b

/-- JS `===` on primitive values (`NaN === NaN` is false). -/
def jsStrictEq : Cell → Cell → Bool
  | .num m, .num n => if m = .nan then false else if n = .nan then false else decide (m = n)
  | a, b => decide (a = b)

/-- Numeric value of one decimal digit character. -/
def digitVal (c : Char) : ℕ := c.toNat - '0'.toNat

/-- Split a leading run of decimal digits from the rest. -/
def takeDigits : List Char → List ℕ × List Char
  | [] => ([], [])
  | c :: cs =>
      if c.isDigit then
        let p := takeDigits cs
        (digitVal c :: p.1, p.2)
      else ([], c :: cs)

/-- Value of a digit run read in base 10. -/
def digitsToNat (ds : List ℕ) : ℕ := ds.foldl (fun a d => 10 * a + d) 0

/-- JS whitespace accepted before a numeric literal. -/
def isWS (c : Char) : Bool := c = ' ' || c = '\t' || c = '\n' || c = '\r'

/-- Exponent part after `e`/`E`: optional sign then digits; when no digit
follows, the exponent is not part of the longest valid literal, so it
contributes `0` (as in `parseFloat("1e")`). -/
def parseExpPart : List Char → ℤ
  | '+' :: cs => match takeDigits cs with
      | ([], _) => 0
      | (ds, _) => (digitsToNat ds : ℤ)
  | '-' :: cs => match takeDigits cs with
      | ([], _) => 0
      | (ds, _) => -(digitsToNat ds : ℤ)
  | cs => match takeDigits cs with
      | ([], _) => 0
      | (ds, _) => (digitsToNat ds : ℤ)

/-- Core of `parseFloat` on a sign-stripped character list: the value of
the longest decimal-literal prefix `digits [. digits] [e/E sign digits]`,
computed as mantissa-digits scaled by a power of ten. -/
def parseFloatCore (cs : List Char) : Option ℚ :=
  match cs with
  | 'I' :: 'n' :: 'f' :: 'i' :: 'n' :: 'i' :: 't' :: 'y' :: _ => none
  | _ =>
    let ip := takeDigits cs
    let fp : List ℕ × List Char :=
      match ip.2 with
      | '.' :: r => takeDigits r
      | r => ([], r)
    if ip.1 = [] && fp.1 = [] then none
    else
      let mant : ℕ := digitsToNat (ip.1 ++ fp.1)
      let e : ℤ :=
        (match fp.2 with
         | 'e' :: r => parseExpPart r
         | 'E' :: r => parseExpPart r
         | _ => 0) - fp.1.length
      some (if 0 ≤ e then ((mant * 10 ^ e.toNat : ℕ) : ℚ) else mkRat mant (10 ^ (-e).toNat))

/-- ECMAScript `parseFloat` on a string: leading whitespace, optional
sign, then the longest prefix that is `Infinity` or a decimal literal;
`NaN` when no prefix parses. -/
def parseFloatStr (s : String) : JSNum :=
  let cs := s.toList.dropWhile isWS
  match cs with
  | '+' :: r =>
      (match r with
       | 'I' :: 'n' :: 'f' :: 'i' :: 'n' :: 'i' :: 't' :: 'y' :: _ => .inf
       | _ => match parseFloatCore r with
              | some q => .fin q
              | none => .nan)
  | '-' :: r =>
      (match r with
       | 'I' :: 'n' :: 'f' :: 'i' :: 'n' :: 'i' :: 't' :: 'y' :: _ => .ninf
       | _ => match parseFloatCore r with
              | some q => .fin (-q)
              | none => .nan)
  | 'I' :: 'n' :: 'f' :: 'i' :: 'n' :: 'i' :: 't' :: 'y' :: _ => .inf
  | r => match parseFloatCore r with
         | some q => .fin q
         | none => .nan

/-- `parseFloat(cell)`: the argument is first converted to a string, so
`undefined`, `null` and booleans parse to `NaN`, a number round-trips
through its own string representation, and a string is parsed. -/
def parseFloatCell : Cell → JSNum
  | .undefined => .nan
  | .jsNull => .nan
  | .bool _ => .nan
  | .num n => n
  | .str s => parseFloatStr s


/-!
Date model: `new Date(v)` produces a time value in milliseconds since the
epoch, or an invalid date (`NaN`).  String parsing covers the ISO
`YYYY-MM-DD` form (parsed as UTC midnight); every other string — never
produced by this repository — is modelled as invalid.
-/

/-- Leap-year test of the proleptic Gregorian calendar. -/
def isLeap (y : ℕ) : Bool := (y % 4 = 0 && y % 100 ≠ 0) || y % 400 = 0

/-- Days in a month (1-12) of year `y`. -/
def daysInMonth (y m : ℕ) : ℕ :=
  if m = 2 then (if isLeap y then 29 else 28)
  else if m = 4 || m = 6 || m = 9 || m = 11 then 30
  else 31

/-- Days from the epoch 1970-01-01 to civil date `y-m-d` (year `0..9999`). -/
def daysFromCivil (y m d : ℕ) : ℤ :=
  let yi : ℤ := if m ≤ 2 then (y : ℤ) - 1 else (y : ℤ)
  let era : ℤ := Int.fdiv yi 400
  let yoe : ℕ := (yi - era * 400).toNat
  let mp : ℕ := if 2 < m then m - 3 else m + 9
  let doy : ℕ := (153 * mp + 2) / 5 + d - 1
  let doe : ℕ := yoe * 365 + yoe / 4 - yoe / 100 + doy
  era * 146097 + (doe : ℤ) - 719468

/-- Civil date `(y, m, d)` of a day count since the epoch. -/
def civilFromDays (z : ℤ) : ℤ × ℕ × ℕ :=
  let z' := z + 719468
  let era : ℤ := Int.fdiv z' 146097
  let doe : ℕ := (z' - era * 146097).toNat
  let yoe : ℕ := (doe - doe / 1460 + doe / 36524 - doe / 146096) / 365
  let doy : ℕ := doe - (365 * yoe + yoe / 4 - yoe / 100)
  let mp : ℕ := (5 * doy + 2) / 153
  let d : ℕ := doy - (153 * mp + 2) / 5 + 1
  let m : ℕ := if mp < 10 then mp + 3 else mp - 9
  (era * 400 + (yoe : ℤ) + (if m ≤ 2 then 1 else 0), m, d)

/-- Left-pad a string with zeros up to width `w` (JS `padStart(w, '0')`). -/
def padZeros (s : String) (w : ℕ) : String :=
  if w ≤ s.length then s else String.mk (List.replicate (w - s.length) '0') ++ s

/-- The year component of `toISOString`: four digits for `0..9999`,
signed six digits outside that range. -/
def yearStr (y : ℤ) : String :=
  if 0 ≤ y && y ≤ 9999 then padZeros (toString y.toNat) 4
  else if 9999 < y then "+" ++ padZeros (toString y.toNat) 6
  else "-" ++ padZeros (toString (-y).toNat) 6

/-- The date part of `toISOString` of a time value (what
`toISOString().split('T')[0]` yields). -/
def isoDateOf (t : ℤ) : String :=
  let c := civilFromDays (Int.fdiv t 86400000)
  yearStr c.1 ++ "-" ++ padZeros (toString c.2.1) 2 ++ "-" ++ padZeros (toString c.2.2) 2

/-- Check that a character list is all digits and return its base-10 value. -/
def digitsOf (cs : List Char) : Option ℕ :=
  if cs.all Char.isDigit then some (digitsToNat (cs.map digitVal)) else none

/-- Time value of an ISO `YYYY-MM-DD` string (UTC midnight of that civil
date); `NaN` when the string is not of that shape or the date is out of
range. -/
def parseDateStr (s : String) : JSNum :=
  match s.toList with
  | [y1, y2, y3, y4, '-', m1, m2, '-', d1, d2] =>
    match digitsOf [y1, y2, y3, y4], digitsOf [m1, m2], digitsOf [d1, d2] with
    | some y, some m, some d =>
        if 1 ≤ m && m ≤ 12 && 1 ≤ d && d ≤ daysInMonth y m then
          .fin ((daysFromCivil y m d * 86400000 : ℤ) : ℚ)
        else .nan
    | _, _, _ => .nan
  | _ => .nan

/-- Truncation toward zero of a rational (JS `ToIntegerOrInfinity` on a
finite number). -/
def truncQ (q : ℚ) : ℤ := q.num / (q.den : ℤ)

/-- Time value of `new Date(v)` for a primitive `v`: strings are parsed,
other primitives go through `ToNumber`, and a finite number is truncated
and clipped to the representable range `|t| ≤ 8.64e15`. -/
def dateMillis : Cell → JSNum
  | .undefined => .nan
  | .jsNull => .fin 0
  | .bool b => .fin (if b then 1 else 0)
  | .num (.fin q) =>
      if q.num.natAbs ≤ 8640000000000000 * q.den then .fin ((truncQ q : ℤ) : ℚ) else .nan
  | .num _ => .nan
  | .str s => parseDateStr s

/-- The source's `formatDate`: `null` for a falsy input; otherwise
`new Date(v).toISOString().split('T')[0]`, with the `RangeError` of
`toISOString` on an invalid date caught and turned into `null`. -/
def formatDate (c : Cell) : Option String :=
  if !truthy c then none
  else match dateMillis c with
    | .fin q => some (isoDateOf (truncQ q))
    | _ => none


/-!
Rows, the record mapper, the store and the four entry points.
-/

/-- One spreadsheet row: an ordered list of raw cell values. -/
abbrev Row := List Cell

/-- JS `row[i]`: the cell, or `undefined` out of range. -/
def getCell (r : Row) (i : ℕ) : Cell := r.getD i .undefined

/-- Result of `getDataRange().getValues()` on an existing sheet: an empty
sheet yields the single-cell grid `[[""]]`. -/
def getValues (rows : List Row) : List Row :=
  if rows.isEmpty then [[.str ""]] else rows

/-- The typed record produced by the mapping inside `doGet`. -/
structure Record where
  orderId : Cell
  projectId : Cell
  projectName : Cell
  projectType : Cell
  region : Cell
  price : JSNum
  date : String
deriving DecidableEq, Repr

/-- `String(n).padStart(3, '0')` applied to a numeral. -/
def padStart3 (s : String) : String := padZeros s 3

/-- The row-to-record mapping inside `doGet` (`rows.map((row, index) => ...)`):
each field falls back to its default when the cell is falsy, `price` is
`parseFloat(row[5]) || 0`, and `date` falls back to the current date
(`today`). `idx` is the 0-based index among data rows. -/
def rowToRecord (today : String) (idx : ℕ) (row : Row) : Record :=
  { orderId := jsOr (getCell row 0) (.str ("ORD-" ++ padStart3 (toString (idx + 1))))
    projectId := jsOr (getCell row 1) (.str ("PRJ-" ++ padStart3 (toString (idx + 1))))
    projectName := jsOr (getCell row 2) (.str "Unnamed Project")
    projectType := jsOr (getCell row 3) (.str "Other")
    region := jsOr (getCell row 4) (.str "Unknown")
    price := jsNumOr (parseFloatCell (getCell row 5)) (.fin 0)
    date := (formatDate (getCell row 6)).getD today }

/-- A JSON value, as produced by `JSON.stringify` of the handlers'
payloads. -/
inductive JsonValue where
  | jnull
  | jbool (b : Bool)
  | jnum (q : ℚ)
  | jstr (s : String)
  | jarr (xs : List JsonValue)
  | jobj (fields : List (String × JsonValue))

/-- `JSON.stringify` of a number: `NaN` and the infinities serialise as
`null`. -/
def numToJson : JSNum → JsonValue
  | .fin q => .jnum q
  | _ => .jnull

/-- `JSON.stringify` of a primitive property value; `none` means the
property is omitted (the value was `undefined`). -/
def cellToJson : Cell → Option JsonValue
  | .undefined => none
  | .jsNull => some .jnull
  | .bool b => some (.jbool b)
  | .num n => some (numToJson n)
  | .str s => some (.jstr s)

/-- JSON object for a record, keys in insertion order, `undefined`-valued
keys omitted as `JSON.stringify` does. -/
def recordToJson (r : Record) : JsonValue :=
  .jobj
    (([("orderId", cellToJson r.orderId), ("projectId", cellToJson r.projectId),
       ("projectName", cellToJson r.projectName), ("projectType", cellToJson r.projectType),
       ("region", cellToJson r.region)].filterMap
        (fun p => p.2.map (fun v => (p.1, v)))) ++
     [("price", numToJson r.price), ("date", .jstr r.date)])

/-- The keys of a JSON object (empty for non-objects). -/
def jsonKeys : JsonValue → List String
  | .jobj l => l.map (fun p => p.1)
  | _ => []

/-- `createJsonResponse`: the response carries exactly the stringified
payload. -/
def createJsonResponse (v : JsonValue) : JsonValue := v

/-- `createErrorResponse`: a JSON response with body `{error: message}`. -/
def createErrorResponse (message : String) : JsonValue :=
  .jobj [("error", .jstr message)]

/-- The sheet named "graph": `none` when absent. -/
abbrev Store := Option (List Row)

/-- `doGet`: list all records.  `h` is the outcome of the host
interaction (`.error` = the host threw; `.ok none` = sheet absent;
`.ok (some rows)` = the sheet's content rows); `today` is the current
date string used for date defaults. -/
def doGet (h : Except String Store) (today : String) : JsonValue :=
  match h with
  | .error e => createErrorResponse ("Failed to fetch data: " ++ e)
  | .ok none =>
      createErrorResponse
        "Sheet \"graph\" not found. Please create a sheet named \"graph\" with the required columns."
  | .ok (some sheetRows) =>
      let data := getValues sheetRows
      if data.length ≤ 1 then createJsonResponse (.jarr [])
      else
        createJsonResponse
          (.jarr ((data.drop 1).mapIdx (fun i row => recordToJson (rowToRecord today i row))))

/-- The parsed POST body: the four fields the source reads; an absent
field is `undefined`. -/
structure CreateBody where
  projectName : Cell
  projectType : Cell
  region : Cell
  price : Cell
deriving DecidableEq, Repr

/-- The source's required-field validation: `!data.projectName ||
!data.projectType || !data.region || !data.price`. -/
def validBody (b : CreateBody) : Bool :=
  truthy b.projectName && truthy b.projectType && truthy b.region && truthy b.price

/-- `doPost`: append one record.  `parse` is the outcome of
`JSON.parse(e.postData.contents)`; `hostErr` is `some e` when the
spreadsheet host throws after validation; the second component of the
result is the store after the call. -/
def doPost (parse : Except String CreateBody) (hostErr : Option String) (store : Store)
    (today : String) : JsonValue × Store :=
  match parse with
  | .error e => (createErrorResponse ("Failed to add data: " ++ e), store)
  | .ok data =>
    if !validBody data then (createErrorResponse "Missing required fields", store)
    else
      match hostErr with
      | some e => (createErrorResponse ("Failed to add data: " ++ e), store)
      | none =>
        match store with
        | none =>
            (createErrorResponse
              "Sheet \"graph\" not found. Please create a sheet named \"graph\" first.", none)
        | some rows =>
            let lastRow := rows.length
            let orderId := "ORD-" ++ padStart3 (toString lastRow)
            let projectId := "PRJ-" ++ padStart3 (toString lastRow)
            let newRow : Row :=
              [.str orderId, .str projectId, data.projectName, data.projectType, data.region,
               data.price, .str today]
            (createJsonResponse
              (.jobj [("success", .jbool true), ("message", .jstr "Data added successfully"),
                      ("orderId", .jstr orderId), ("projectId", .jstr projectId)]),
             some (rows ++ [newRow]))

/-!
`getDataByFilter`, `getStatistics` and `setupSheet`.
-/

/-- The criteria object of `getDataByFilter`; an absent key is `undefined`. -/
structure Criteria where
  projectType : Cell
  region : Cell
  startDate : Cell
  endDate : Cell
deriving DecidableEq, Repr

/-- The body of the `rows.filter` callback in `getDataByFilter`. -/
def keepRow (c : Criteria) (row : Row) : Bool :=
  if truthy c.projectType && !jsStrictEq (getCell row 3) c.projectType then false
  else if truthy c.region && !jsStrictEq (getCell row 4) c.region then false
  else if truthy c.startDate && truthy c.endDate then
    !(JSNum.ltB (dateMillis (getCell row 6)) (dateMillis c.startDate) ||
      JSNum.ltB (dateMillis c.endDate) (dateMillis (getCell row 6)))
  else true

/-- `getDataByFilter(criteria)`: `[]` when the sheet is absent, otherwise
the data rows (everything after the first row) passing all present
criteria. -/
def getDataByFilter (c : Criteria) (store : Store) : List Row :=
  match store with
  | none => []
  | some sheetRows => ((getValues sheetRows).drop 1).filter (keepRow c)

/-- One data row's contribution to `totalRevenue`: `parseFloat(row[5]) || 0`. -/
def rowPrice (r : Row) : JSNum := jsNumOr (parseFloatCell (getCell r 5)) (.fin 0)

/-- Counting key for `projectTypeCounts`: `row[3] || 'Other'`. -/
def typeKey (r : Row) : Cell := jsOr (getCell r 3) (.str "Other")

/-- Counting key for `regionCounts`: `row[4] || 'Unknown'`. -/
def regionKey (r : Row) : Cell := jsOr (getCell r 4) (.str "Unknown")

/-- `counts[k] = (counts[k] || 0) + 1` on an insertion-ordered object:
increment in place when the key exists, else append with count 1.
Keys are kept as raw cell values; JS's string coercion of property keys
is observationally the same for the string-valued cells this sheet holds. -/
def bump : List (Cell × ℕ) → Cell → List (Cell × ℕ)
  | [], c => [(c, 1)]
  | (k, n) :: rest, c => if k = c then (k, n + 1) :: rest else (k, n) :: bump rest c

/-- The counting loop of `getStatistics` over the data rows. -/
def countListBy (key : Row → Cell) (rows : List Row) : List (Cell × ℕ) :=
  rows.foldl (fun acc r => bump acc (key r)) []

/-- Property read `counts[k] || 0` on the insertion-ordered object. -/
def lookupCount : List (Cell × ℕ) → Cell → ℕ
  | [], _ => 0
  | (k, n) :: rest, c => if k = c then n else lookupCount rest c

/-- The object returned by `getStatistics`. -/
structure Stats where
  totalOrders : ℕ
  totalRevenue : JSNum
  avgPrice : JSNum
  projectTypeCounts : List (Cell × ℕ)
  regionCounts : List (Cell × ℕ)
deriving DecidableEq, Repr

/-- `getStatistics()`: zero/empty statistics when the sheet is absent,
otherwise count, revenue sum, average and the two occurrence maps over
the data rows. -/
def getStatistics (store : Store) : Stats :=
  match store with
  | none => ⟨0, .fin 0, .fin 0, [], []⟩
  | some sheetRows =>
    let rows := (getValues sheetRows).drop 1
    let totalOrders := rows.length
    let totalRevenue := rows.foldl (fun s r => JSNum.jsAdd s (rowPrice r)) (.fin 0)
    let avgPrice :=
      if 0 < totalOrders then JSNum.jsDiv totalRevenue (.fin totalOrders) else .fin 0
    ⟨totalOrders, totalRevenue, avgPrice, countListBy typeKey rows, countListBy regionKey rows⟩

/-- The header row written by `setupSheet`. -/
def headerRow : Row :=
  [.str "Order ID", .str "Project ID", .str "Project Name", .str "Project Type",
   .str "Region", .str "Price", .str "Date"]

/-- The five literal sample rows written by `setupSheet`. -/
def sampleRows : List Row :=
  [[.str "ORD-001", .str "PRJ-001", .str "E-commerce Website", .str "Development",
    .str "North America", .num (.fin 15000), .str "2024-01-15"],
   [.str "ORD-002", .str "PRJ-002", .str "Brand Identity Design", .str "Design",
    .str "Europe", .num (.fin 8000), .str "2024-01-20"],
   [.str "ORD-003", .str "PRJ-003", .str "Digital Marketing Campaign", .str "Marketing",
    .str "Asia Pacific", .num (.fin 12000), .str "2024-01-25"],
   [.str "ORD-004", .str "PRJ-004", .str "Mobile App Development", .str "Development",
    .str "North America", .num (.fin 25000), .str "2024-02-01"],
   [.str "ORD-005", .str "PRJ-005", .str "UI/UX Redesign", .str "Design",
    .str "Europe", .num (.fin 9500), .str "2024-02-05"]]

/-- `setupSheet()`: create the sheet when absent (it is then empty); when
`getLastRow() === 0`, write the header in row 1 and the five samples in
rows 2-6; otherwise leave the sheet as it is. -/
def setupSheet (store : Store) : Store :=
  let rows := store.getD []
  if rows.length = 0 then some (headerRow :: sampleRows) else some rows

/-- First example data row of the spec's end-to-end statistics check. -/
def exampleRow1 : Row :=
  [.str "ORD-001", .str "PRJ-001", .str "Site", .str "Development", .str "NA",
   .num (.fin 15000), .str "2024-01-15"]

/-- Second example data row of the spec's end-to-end statistics check
(price cell is the unparseable string `"abc"`). -/
def exampleRow2 : Row :=
  [.str "ORD-002", .str "PRJ-002", .str "Logo", .str "Design", .str "EU",
   .str "abc", .str "2024-01-20"]

/-- The row predicate of claim C5, written from the spec's words: every
present (truthy) criterion must hold — exact cell equality for
`projectType` and `region`, and, when both `startDate` and `endDate` are
present, the row's parsed date must lie in the inclusive range of the two
parsed criteria dates. -/
def specKeep (c : Criteria) (row : Row) : Bool :=
  (!truthy c.projectType || decide (getCell row 3 = c.projectType)) &&
  (!truthy c.region || decide (getCell row 4 = c.region)) &&
  (!(truthy c.startDate && truthy c.endDate) ||
    (decide ((dateMillis c.startDate).finPart ≤ (dateMillis (getCell row 6)).finPart) &&
     decide ((dateMillis (getCell row 6)).finPart ≤ (dateMillis c.endDate).finPart)))

/-!
Helper lemmas.
-/

/-- A string with a nonempty prefix appended to anything is nonempty. -/
theorem append_left_ne_empty (p t : String) (c : Char) (cs : List Char)
    (hp : p.data = c :: cs) : p ++ t ≠ "" := by
  intro h
  have hd : (p ++ t).data = ("" : String).data := by rw [h]
  rw [String.data_append, hp] at hd
  simp at hd

/-- `a || b` with a nonempty-string default is never `undefined`. -/
theorem jsOr_str_not_undefined (a : Cell) (s : String) : jsOr a (Cell.str s) ≠ Cell.undefined := by
  unfold jsOr
  split
  · rename_i ht
    intro h
    rw [h] at ht
    simp [truthy] at ht
  · simp

/-- A defined primitive value serialises to some JSON value. -/
theorem cellToJson_some (c : Cell) (h : c ≠ Cell.undefined) : ∃ v, cellToJson c = some v := by
  cases c
  · exact absurd rfl h
  · exact ⟨_, rfl⟩
  · exact ⟨_, rfl⟩
  · exact ⟨_, rfl⟩
  · exact ⟨_, rfl⟩

/-- `parseFloat(x) || 0` is never `NaN`. -/
theorem jsNumOr_zero_ne_nan (p : JSNum) : jsNumOr p (.fin 0) ≠ JSNum.nan := by
  unfold jsNumOr
  split
  · rename_i ht
    intro h
    rw [h] at ht
    simp [JSNum.truthyNum] at ht
  · simp

/-!
C9: `handleList` on a header-only (or rowless) store.
-/

/-- C9: for every existing store containing only the header row, or no
rows at all, `doGet` returns the empty JSON array. -/
theorem c9_handleList_header_only_returns_empty (today : String) (header : Row) :
    doGet (.ok (some [header])) today = createJsonResponse (.jarr []) ∧
    doGet (.ok (some [])) today = createJsonResponse (.jarr []) := by
  constructor
  · simp [doGet, getValues, createJsonResponse]
  · rfl

/-!
C10: `getDataByFilter` on an absent store, versus the handlers.
-/

/-- C10: when the sheet is absent `getDataByFilter` returns the empty
list for every criteria object (no error value), while `doGet` reports
the missing store as an `{error}` response. -/
theorem c10_filter_absent_store_empty (c : Criteria) (today : String) :
    getDataByFilter c none = [] ∧
    doGet (.ok none) today =
      createErrorResponse
        "Sheet \"graph\" not found. Please create a sheet named \"graph\" with the required columns." :=
  ⟨rfl, rfl⟩

/-!
C7: bootstrap idempotence.
-/

/-- C7: `setupSheet` on an absent or zero-row store writes exactly 6 rows
(header plus the 5 fixed samples); on any store with at least one row it
changes nothing, and repeated calls keep the row count at 6. -/
theorem c7_setup_idempotent :
    setupSheet none = some (headerRow :: sampleRows) ∧
    setupSheet (some []) = some (headerRow :: sampleRows) ∧
    (headerRow :: sampleRows).length = 6 ∧
    (∀ rows : List Row, rows ≠ [] → setupSheet (some rows) = some rows) ∧
    setupSheet (setupSheet none) = setupSheet none ∧
    setupSheet (setupSheet (some [])) = setupSheet (some []) := by
  refine ⟨rfl, rfl, rfl, ?_, rfl, rfl⟩
  intro rows h
  cases rows with
  | nil => exact absurd rfl h
  | cons r rs => simp [setupSheet]

/-- Witness for C7 at a concrete one-row store. -/
theorem c7_setup_idempotent_witness :
    setupSheet (some [[Cell.str "x"]]) = some [[Cell.str "x"]] :=
  c7_setup_idempotent.2.2.2.1 [[Cell.str "x"]] (by simp)

/-!
C3: validation failure is atomic.
-/

/-- C3: when the body's `price` is absent or `0`, or a required string
field is absent or empty, `doPost` answers `{error: "Missing required
fields"}` and leaves the store unchanged. -/
theorem c3_create_validation_atomic (b : CreateBody) (hostErr : Option String)
    (store : Store) (today : String)
    (h : b.price = Cell.undefined ∨ b.price = Cell.num (.fin 0) ∨
         b.projectName = Cell.undefined ∨ b.projectName = Cell.str "" ∨
         b.projectType = Cell.undefined ∨ b.projectType = Cell.str "" ∨
         b.region = Cell.undefined ∨ b.region = Cell.str "") :
    doPost (.ok b) hostErr store today =
      (createErrorResponse "Missing required fields", store) := by
  have hv : validBody b = false := by
    rcases h with h | h | h | h | h | h | h | h <;>
      simp [validBody, h, truthy, JSNum.truthyNum]
  simp [doPost, hv]

/-- Witness for C3: a body with price `0` against a header-only store. -/
theorem c3_create_validation_atomic_witness :
    doPost (.ok ⟨Cell.str "Site", Cell.str "Development", Cell.str "EU", Cell.num (.fin 0)⟩)
        none (some [headerRow]) "2024-03-01" =
      (createErrorResponse "Missing required fields", some [headerRow]) :=
  c3_create_validation_atomic _ none (some [headerRow]) "2024-03-01" (Or.inr (Or.inl rfl))

/-!
C6: default substitution in the record mapper.
-/

/-- C6: a blank `projectType` cell maps to `"Other"`, blank `region` to
`"Unknown"`, blank `projectName` to `"Unnamed Project"`, and a price cell
whose parse is `NaN` maps to price `0`; the mapper is a total function,
so malformed cells never make it fail. -/
theorem c6_default_substitution (today : String) (idx : ℕ) (row : Row) :
    (truthy (getCell row 3) = false →
      (rowToRecord today idx row).projectType = Cell.str "Other") ∧
    (truthy (getCell row 4) = false →
      (rowToRecord today idx row).region = Cell.str "Unknown") ∧
    (truthy (getCell row 2) = false →
      (rowToRecord today idx row).projectName = Cell.str "Unnamed Project") ∧
    (parseFloatCell (getCell row 5) = JSNum.nan →
      (rowToRecord today idx row).price = JSNum.fin 0) := by
  refine ⟨fun h => ?_, fun h => ?_, fun h => ?_, fun h => ?_⟩
  all_goals simp [rowToRecord, jsOr, jsNumOr, h, JSNum.truthyNum]

/-- Witness for C6 at a row with blank name/type/region and price `"abc"`. -/
theorem c6_default_substitution_witness :
    (rowToRecord "2024-03-01" 0
        [Cell.str "ORD-001", Cell.str "PRJ-001", Cell.str "", Cell.str "",
         Cell.str "", Cell.str "abc", Cell.str "2024-01-15"]).projectType = Cell.str "Other" ∧
    (rowToRecord "2024-03-01" 0
        [Cell.str "ORD-001", Cell.str "PRJ-001", Cell.str "", Cell.str "",
         Cell.str "", Cell.str "abc", Cell.str "2024-01-15"]).price = JSNum.fin 0 :=
  ⟨(c6_default_substitution "2024-03-01" 0 _).1 (by decide),
   (c6_default_substitution "2024-03-01" 0 _).2.2.2 (by decide)⟩

/-!
C2: output invariant of the record mapper.  The claim as frozen says the
price is always a finite number; a price cell `"Infinity"` parses to a
truthy `+Infinity`, which `parseFloat(row[5]) || 0` passes through, so
the record's price is not finite there.
-/

/-- C2 counterexample: on a row whose price cell is `"Infinity"`, the
record's price is `+Infinity`, which is not a finite number. -/
theorem c2_price_not_always_finite :
    (rowToRecord "2024-03-01" 0
        [Cell.str "ORD-001", Cell.str "PRJ-001", Cell.str "Site", Cell.str "Development",
         Cell.str "NA", Cell.str "Infinity", Cell.str "2024-01-15"]).price = JSNum.inf ∧
    JSNum.isFinite
      (rowToRecord "2024-03-01" 0
        [Cell.str "ORD-001", Cell.str "PRJ-001", Cell.str "Site", Cell.str "Development",
         Cell.str "NA", Cell.str "Infinity", Cell.str "2024-01-15"]).price = false := by
  constructor <;> decide

/-- C2 amended: for every row, the record has all seven fields present
(the serialised object keeps all seven keys, none `undefined`), and the
price is a number that is never `NaN`: it is `0` when the cell's parse is
`NaN`, and finite whenever the cell's parse is finite — only a cell
parsing to an infinity escapes finiteness. -/
theorem c2_record_fields_present_price_never_nan (today : String) (idx : ℕ) (row : Row) :
    jsonKeys (recordToJson (rowToRecord today idx row)) =
      ["orderId", "projectId", "projectName", "projectType", "region", "price", "date"] ∧
    (rowToRecord today idx row).price ≠ JSNum.nan ∧
    (parseFloatCell (getCell row 5) = JSNum.nan →
      (rowToRecord today idx row).price = JSNum.fin 0) ∧
    (JSNum.isFinite (parseFloatCell (getCell row 5)) = true →
      JSNum.isFinite (rowToRecord today idx row).price = true) := by
  refine ⟨?_, ?_, fun h => ?_, fun h => ?_⟩
  · obtain ⟨v0, h0⟩ := cellToJson_some _
      (jsOr_str_not_undefined (getCell row 0) ("ORD-" ++ padStart3 (toString (idx + 1))))
    obtain ⟨v1, h1⟩ := cellToJson_some _
      (jsOr_str_not_undefined (getCell row 1) ("PRJ-" ++ padStart3 (toString (idx + 1))))
    obtain ⟨v2, h2⟩ := cellToJson_some _ (jsOr_str_not_undefined (getCell row 2) "Unnamed Project")
    obtain ⟨v3, h3⟩ := cellToJson_some _ (jsOr_str_not_undefined (getCell row 3) "Other")
    obtain ⟨v4, h4⟩ := cellToJson_some _ (jsOr_str_not_undefined (getCell row 4) "Unknown")
    simp [recordToJson, rowToRecord, jsonKeys, h0, h1, h2, h3, h4]
  · exact jsNumOr_zero_ne_nan _
  · simp [rowToRecord, jsNumOr, h, JSNum.truthyNum]
  · rcases hp : parseFloatCell (getCell row 5) with q | _ | _ | _ <;> rw [hp] at h
    · simp [rowToRecord, jsNumOr, hp, JSNum.truthyNum]
      split <;> simp [JSNum.isFinite]
    · simp [JSNum.isFinite] at h
    · simp [JSNum.isFinite] at h
    · simp [JSNum.isFinite] at h

/-- Witness for the amended C2 at a row with an unparseable price. -/
theorem c2_record_fields_witness :
    (rowToRecord "2024-03-01" 0
        [Cell.str "a", Cell.str "b", Cell.str "c", Cell.str "d", Cell.str "e",
         Cell.str "abc", Cell.undefined]).price = JSNum.fin 0 :=
  (c2_record_fields_present_price_never_nan "2024-03-01" 0 _).2.2.1 (by decide)

/-!
C8: the handlers never let an exception past the boundary.
-/

/-- C8: for every host outcome and body-parse outcome, `doGet` and
`doPost` return a JSON payload that is either the success shape or the
single error shape `{error: string}`; a thrown host error or an invalid
JSON body is converted to that error shape with the handler's generic
prefix. -/
theorem c8_handlers_always_json :
    (∀ (h : Except String Store) (today : String),
        (∃ m, doGet h today = createErrorResponse m) ∨
        (∃ items, doGet h today = createJsonResponse (.jarr items))) ∧
    (∀ (e : String) (today : String),
        doGet (.error e) today = createErrorResponse ("Failed to fetch data: " ++ e)) ∧
    (∀ (parse : Except String CreateBody) (hostErr : Option String) (store : Store)
        (today : String),
        (∃ m, (doPost parse hostErr store today).1 = createErrorResponse m) ∨
        (∃ oid pid, (doPost parse hostErr store today).1 =
          createJsonResponse
            (.jobj [("success", .jbool true), ("message", .jstr "Data added successfully"),
                    ("orderId", .jstr oid), ("projectId", .jstr pid)]))) ∧
    (∀ (e : String) (hostErr : Option String) (store : Store) (today : String),
        doPost (.error e) hostErr store today =
          (createErrorResponse ("Failed to add data: " ++ e), store)) := by
  refine ⟨?_, fun e today => rfl, ?_, fun e hostErr store today => rfl⟩
  · intro h today
    cases h with
    | error e => exact Or.inl ⟨"Failed to fetch data: " ++ e, rfl⟩
    | ok store =>
      cases store with
      | none =>
          exact Or.inl
            ⟨"Sheet \"graph\" not found. Please create a sheet named \"graph\" with the required columns.",
             rfl⟩
      | some sheetRows =>
          by_cases hl : (getValues sheetRows).length ≤ 1
          · exact Or.inr ⟨[], by simp [doGet, hl]⟩
          · refine Or.inr ⟨((getValues sheetRows).drop 1).mapIdx
              (fun i row => recordToJson (rowToRecord today i row)), ?_⟩
            simp [doGet, createJsonResponse, hl]
  · intro parse hostErr store today
    cases parse with
    | error e => exact Or.inl ⟨"Failed to add data: " ++ e, rfl⟩
    | ok data =>
      cases hv : validBody data with
      | false => exact Or.inl ⟨"Missing required fields", by simp [doPost, hv]⟩
      | true =>
        cases hostErr with
        | some e => exact Or.inl ⟨"Failed to add data: " ++ e, by simp [doPost, hv]⟩
        | none =>
          cases store with
          | none =>
              exact Or.inl
                ⟨"Sheet \"graph\" not found. Please create a sheet named \"graph\" first.",
                 by simp [doPost, hv]⟩
          | some rows =>
              exact Or.inr ⟨"ORD-" ++ padStart3 (toString rows.length),
                "PRJ-" ++ padStart3 (toString rows.length),
                by simp [doPost, hv, createJsonResponse]⟩

/-!
C1: round-trip of the create path and the read path.
-/

/-- C1: on a store whose first row is the header and that holds `N` data
rows, `doPost` with non-empty `projectName`/`projectType`/`region` and a
non-zero finite `price` appends one row whose ids are
`ORD-`/`PRJ-` followed by `N+1` zero-padded to width 3 (the new row's
1-based position among data rows), and `rowToRecord` maps that appended
row back to a record whose `projectName`, `projectType`, `region` and
`price` equal the input values exactly. -/
theorem c1_create_read_roundtrip (header : Row) (dataRows : List Row)
    (today s1 s2 s3 : String) (q : ℚ)
    (h1 : s1 ≠ "") (h2 : s2 ≠ "") (h3 : s3 ≠ "") (hq : q ≠ 0) :
    doPost (.ok ⟨.str s1, .str s2, .str s3, .num (.fin q)⟩) none
        (some (header :: dataRows)) today =
      (createJsonResponse
        (.jobj [("success", .jbool true), ("message", .jstr "Data added successfully"),
                ("orderId", .jstr ("ORD-" ++ padStart3 (toString (dataRows.length + 1)))),
                ("projectId", .jstr ("PRJ-" ++ padStart3 (toString (dataRows.length + 1))))]),
       some (header :: dataRows ++
        [[.str ("ORD-" ++ padStart3 (toString (dataRows.length + 1))),
          .str ("PRJ-" ++ padStart3 (toString (dataRows.length + 1))),
          .str s1, .str s2, .str s3, .num (.fin q), .str today]])) ∧
    rowToRecord today dataRows.length
        [.str ("ORD-" ++ padStart3 (toString (dataRows.length + 1))),
         .str ("PRJ-" ++ padStart3 (toString (dataRows.length + 1))),
         .str s1, .str s2, .str s3, .num (.fin q), .str today] =
      { orderId := .str ("ORD-" ++ padStart3 (toString (dataRows.length + 1)))
        projectId := .str ("PRJ-" ++ padStart3 (toString (dataRows.length + 1)))
        projectName := .str s1
        projectType := .str s2
        region := .str s3
        price := .fin q
        date := (formatDate (.str today)).getD today } := by
  have hOrd : ("ORD-" ++ padStart3 (toString (dataRows.length + 1))) ≠ "" :=
    append_left_ne_empty _ _ 'O' ['R', 'D', '-'] rfl
  have hPrj : ("PRJ-" ++ padStart3 (toString (dataRows.length + 1))) ≠ "" :=
    append_left_ne_empty _ _ 'P' ['R', 'J', '-'] rfl
  constructor
  · simp [doPost, validBody, truthy, JSNum.truthyNum, h1, h2, h3, hq]
  · simp [rowToRecord, getCell, jsOr, jsNumOr, parseFloatCell, truthy, JSNum.truthyNum,
      hOrd, hPrj, h1, h2, h3, hq]

/-- Witness for C1: appending to a header-only store. -/
theorem c1_create_read_roundtrip_witness :
    doPost (.ok ⟨.str "Site", .str "Development", .str "NA", .num (.fin 15000)⟩) none
        (some [headerRow]) "2024-03-01" =
      (createJsonResponse
        (.jobj [("success", .jbool true), ("message", .jstr "Data added successfully"),
                ("orderId", .jstr ("ORD-" ++ padStart3 (toString 1))),
                ("projectId", .jstr ("PRJ-" ++ padStart3 (toString 1)))]),
       some [headerRow,
        [.str ("ORD-" ++ padStart3 (toString 1)), .str ("PRJ-" ++ padStart3 (toString 1)),
         .str "Site", .str "Development", .str "NA", .num (.fin 15000),
         .str "2024-03-01"]]) ∧
    rowToRecord "2024-03-01" 0
        [.str ("ORD-" ++ padStart3 (toString 1)), .str ("PRJ-" ++ padStart3 (toString 1)),
         .str "Site", .str "Development", .str "NA", .num (.fin 15000),
         .str "2024-03-01"] =
      { orderId := .str ("ORD-" ++ padStart3 (toString 1))
        projectId := .str ("PRJ-" ++ padStart3 (toString 1))
        projectName := .str "Site"
        projectType := .str "Development"
        region := .str "NA"
        price := .fin 15000
        date := (formatDate (.str "2024-03-01")).getD "2024-03-01" } :=
  c1_create_read_roundtrip headerRow [] "2024-03-01" "Site" "Development" "NA" 15000
    (by decide) (by decide) (by decide) (by decide)

/-!
C4: `getStatistics`.
-/

/-- Folding JS addition of finitely-valued row prices from a finite seed
is exact rational summation. -/
theorem foldl_jsAdd_fin (rows : List Row) (q : ℚ)
    (h : ∀ r ∈ rows, (rowPrice r).isFinite = true) :
    rows.foldl (fun s r => JSNum.jsAdd s (rowPrice r)) (.fin q) =
      .fin (q + (rows.map (fun r => (rowPrice r).finPart)).sum) := by
  induction rows generalizing q with
  | nil => simp
  | cons r rs ih =>
    have hr : (rowPrice r).isFinite = true := h r (List.mem_cons_self r rs)
    obtain ⟨p, hp⟩ : ∃ p, rowPrice r = .fin p := by
      cases hrp : rowPrice r
      · exact ⟨_, rfl⟩
      all_goals rw [hrp] at hr
      all_goals simp [JSNum.isFinite] at hr
    rw [List.foldl_cons, List.map_cons, List.sum_cons, hp]
    have hstep : JSNum.jsAdd (.fin q) (.fin p) = .fin (q + p) := rfl
    rw [hstep, ih (q + p) (fun x hx => h x (List.mem_cons_of_mem r hx))]
    simp [JSNum.finPart]
    ring

/-- Reading a key from the count object after one bump. -/
theorem lookupCount_bump (l : List (Cell × ℕ)) (c c' : Cell) :
    lookupCount (bump l c) c' =
      if c = c' then lookupCount l c' + 1 else lookupCount l c' := by
  induction l with
  | nil =>
      by_cases h : c = c' <;> simp [bump, lookupCount, h]
  | cons kn rest ih =>
      obtain ⟨k, n⟩ := kn
      by_cases hkc : k = c
      · subst hkc
        by_cases hkc' : k = c' <;> simp [bump, lookupCount, hkc']
      · by_cases hkc' : k = c'
        · subst hkc'
          simp [bump, lookupCount, hkc, ih, Ne.symm hkc]
        · simp [bump, lookupCount, hkc, hkc', ih]

/-- Reading a key from the finished counting loop gives the number of
rows with that key. -/
theorem lookupCount_countListBy (key : Row → Cell) (rows : List Row)
    (acc : List (Cell × ℕ)) (c : Cell) :
    lookupCount (rows.foldl (fun a r => bump a (key r)) acc) c =
      lookupCount acc c + (rows.filter (fun r => decide (key r = c))).length := by
  induction rows generalizing acc with
  | nil => simp
  | cons r rs ih =>
      rw [List.foldl_cons, ih, lookupCount_bump]
      by_cases h : key r = c
      all_goals simp [List.filter_cons, h]
      all_goals omega

/-- JS division of two finite numbers with nonzero divisor is rational
division. -/
theorem jsDiv_fin_fin (a b : ℚ) (hb : b ≠ 0) :
    JSNum.jsDiv (.fin a) (.fin b) = .fin (a / b) := by
  simp [JSNum.jsDiv, hb]

/-- C4: `getStatistics` returns the data-row count, the sum of parsed
prices (unparseable contributing `0`), the average price (or `0` when
there are no data rows), and per-`projectType` / per-`region` occurrence
counts (blank cells counting under `"Other"` / `"Unknown"`); an absent
store yields the all-zero shape; and on the spec's two example rows it
yields `totalOrders = 2`, `totalRevenue = 15000`, `avgPrice = 7500` and
the two singleton counts each. -/
theorem c4_statistics_correct :
    getStatistics none = ⟨0, .fin 0, .fin 0, [], []⟩ ∧
    (∀ sheetRows : List Row,
      (getStatistics (some sheetRows)).totalOrders = ((getValues sheetRows).drop 1).length ∧
      (∀ c : Cell,
        lookupCount (getStatistics (some sheetRows)).projectTypeCounts c =
          (((getValues sheetRows).drop 1).filter (fun r => decide (typeKey r = c))).length) ∧
      (∀ c : Cell,
        lookupCount (getStatistics (some sheetRows)).regionCounts c =
          (((getValues sheetRows).drop 1).filter (fun r => decide (regionKey r = c))).length) ∧
      ((∀ r ∈ (getValues sheetRows).drop 1, (rowPrice r).isFinite = true) →
        (getStatistics (some sheetRows)).totalRevenue =
          .fin ((((getValues sheetRows).drop 1).map (fun r => (rowPrice r).finPart)).sum) ∧
        (getStatistics (some sheetRows)).avgPrice =
          (if 0 < ((getValues sheetRows).drop 1).length then
            JSNum.fin ((((getValues sheetRows).drop 1).map (fun r => (rowPrice r).finPart)).sum /
              (((getValues sheetRows).drop 1).length : ℚ))
          else .fin 0))) ∧
    getStatistics (some [headerRow, exampleRow1, exampleRow2]) =
      ⟨2, .fin 15000, .fin 7500,
       [(.str "Development", 1), (.str "Design", 1)],
       [(.str "NA", 1), (.str "EU", 1)]⟩ := by
  refine ⟨rfl, ?_, ?_⟩
  · intro sheetRows
    refine ⟨rfl, ?_, ?_, ?_⟩
    · intro c
      have := lookupCount_countListBy typeKey ((getValues sheetRows).drop 1) [] c
      simpa [getStatistics, countListBy, lookupCount] using this
    · intro c
      have := lookupCount_countListBy regionKey ((getValues sheetRows).drop 1) [] c
      simpa [getStatistics, countListBy, lookupCount] using this
    · intro hf
      have hsum := foldl_jsAdd_fin ((getValues sheetRows).drop 1) 0 hf
      rw [zero_add] at hsum
      constructor
      · exact hsum
      · show (if 0 < ((getValues sheetRows).drop 1).length then
            JSNum.jsDiv
              (((getValues sheetRows).drop 1).foldl
                (fun s r => JSNum.jsAdd s (rowPrice r)) (.fin 0))
              (.fin (((getValues sheetRows).drop 1).length : ℚ))
          else .fin 0) = _
        rw [hsum]
        by_cases hlen : 0 < ((getValues sheetRows).drop 1).length
        · rw [if_pos hlen, if_pos hlen]
          have hne : ((((getValues sheetRows).drop 1).length : ℚ)) ≠ 0 :=
            Nat.cast_ne_zero.mpr (Nat.pos_iff_ne_zero.mp hlen)
          exact jsDiv_fin_fin _ _ hne
        · rw [if_neg hlen, if_neg hlen]
  · have habc : parseFloatStr "abc" = JSNum.nan := by decide
    have hO : (getStatistics (some [headerRow, exampleRow1, exampleRow2])).totalOrders = 2 := rfl
    have hT : (getStatistics (some [headerRow, exampleRow1, exampleRow2])).projectTypeCounts =
        [(.str "Development", 1), (.str "Design", 1)] := by decide
    have hR : (getStatistics (some [headerRow, exampleRow1, exampleRow2])).regionCounts =
        [(.str "NA", 1), (.str "EU", 1)] := by decide
    have hRev : (getStatistics (some [headerRow, exampleRow1, exampleRow2])).totalRevenue =
        .fin 15000 := by
      show List.foldl (fun s r => JSNum.jsAdd s (rowPrice r)) (.fin 0)
        ((getValues [headerRow, exampleRow1, exampleRow2]).drop 1) = .fin 15000
      norm_num [getValues, exampleRow1, exampleRow2, rowPrice, parseFloatCell, getCell,
        jsNumOr, JSNum.truthyNum, JSNum.jsAdd, habc]
    have hAvg : (getStatistics (some [headerRow, exampleRow1, exampleRow2])).avgPrice =
        .fin 7500 := by
      show (if 0 < ((getValues [headerRow, exampleRow1, exampleRow2]).drop 1).length then
          JSNum.jsDiv
            (((getValues [headerRow, exampleRow1, exampleRow2]).drop 1).foldl
              (fun s r => JSNum.jsAdd s (rowPrice r)) (.fin 0))
            (.fin (((getValues [headerRow, exampleRow1, exampleRow2]).drop 1).length : ℚ))
        else .fin 0) = .fin 7500
      norm_num [getValues, exampleRow1, exampleRow2, rowPrice, parseFloatCell, getCell,
        jsNumOr, JSNum.truthyNum, JSNum.jsAdd, JSNum.jsDiv, habc]
    have heta : getStatistics (some [headerRow, exampleRow1, exampleRow2]) =
        ⟨(getStatistics (some [headerRow, exampleRow1, exampleRow2])).totalOrders,
         (getStatistics (some [headerRow, exampleRow1, exampleRow2])).totalRevenue,
         (getStatistics (some [headerRow, exampleRow1, exampleRow2])).avgPrice,
         (getStatistics (some [headerRow, exampleRow1, exampleRow2])).projectTypeCounts,
         (getStatistics (some [headerRow, exampleRow1, exampleRow2])).regionCounts⟩ := rfl
    rw [heta, hO, hT, hR, hRev, hAvg]

/-- Witness for C4's conditional part at a concrete one-data-row store. -/
theorem c4_statistics_correct_witness :
    (getStatistics (some [headerRow, exampleRow1])).totalRevenue = .fin 15000 ∧
    (getStatistics (some [headerRow, exampleRow1])).avgPrice = .fin 15000 := by
  obtain ⟨h1, h2⟩ := ((c4_statistics_correct.2.1 [headerRow, exampleRow1]).2.2.2) (by decide)
  constructor
  · rw [h1]
    norm_num [getValues, exampleRow1, rowPrice, parseFloatCell, getCell, jsNumOr,
      JSNum.truthyNum, JSNum.finPart]
  · rw [h2]
    norm_num [getValues, exampleRow1, rowPrice, parseFloatCell, getCell, jsNumOr,
      JSNum.truthyNum, JSNum.finPart]

/-!
C5: `getDataByFilter`.
-/

/-- Against a truthy comparison value (hence not `NaN`), JS strict
equality agrees with equality of the modelled values. -/
theorem jsStrictEq_of_truthy (a b : Cell) (hb : truthy b = true) :
    jsStrictEq a b = decide (a = b) := by
  cases a <;> cases b <;> try rfl
  rename_i m n
  by_cases hn : n = JSNum.nan
  · rw [hn] at hb
    simp [truthy, JSNum.truthyNum] at hb
  · by_cases hm : m = JSNum.nan
    · subst hm
      simp [jsStrictEq, Ne.symm hn]
    · simp [jsStrictEq, hm, hn]

/-- On finite values, JS `<` agrees with the rational order. -/
theorem ltB_fin (a b : JSNum) (ha : a.isFinite = true) (hb : b.isFinite = true) :
    JSNum.ltB a b = decide (a.finPart < b.finPart) := by
  cases a <;> cases b <;> simp_all [JSNum.isFinite, JSNum.ltB, JSNum.finPart]

/-- The filter callback of `getDataByFilter` agrees with the spec's
ANDed-criteria predicate on any row whose date cell (and the two criteria
dates) parse to finite time values whenever a date range is present. -/
theorem keepRow_eq_specKeep (c : Criteria) (r : Row)
    (hdate : truthy c.startDate = true → truthy c.endDate = true →
      (dateMillis c.startDate).isFinite = true ∧ (dateMillis c.endDate).isFinite = true ∧
      (dateMillis (getCell r 6)).isFinite = true) :
    keepRow c r = specKeep c r := by
  have hrest2 : (if truthy c.startDate && truthy c.endDate then
      !(JSNum.ltB (dateMillis (getCell r 6)) (dateMillis c.startDate) ||
        JSNum.ltB (dateMillis c.endDate) (dateMillis (getCell r 6))) else true) =
      (!(truthy c.startDate && truthy c.endDate) ||
        (decide ((dateMillis c.startDate).finPart ≤ (dateMillis (getCell r 6)).finPart) &&
         decide ((dateMillis (getCell r 6)).finPart ≤ (dateMillis c.endDate).finPart))) := by
    cases hse : (truthy c.startDate && truthy c.endDate) with
    | false => simp
    | true =>
        have hse' := hse
        simp only [Bool.and_eq_true] at hse'
        obtain ⟨hs, he⟩ := hse'
        obtain ⟨hfs, hfe, hfr⟩ := hdate hs he
        rw [if_pos rfl]
        rw [ltB_fin _ _ hfr hfs, ltB_fin _ _ hfe hfr]
        simp [Bool.not_or, ← decide_not, not_lt]
  unfold keepRow specKeep
  rw [hrest2]
  cases hpt : truthy c.projectType with
  | false =>
      cases hrg : truthy c.region with
      | false => simp
      | true =>
          rw [jsStrictEq_of_truthy _ _ hrg]
          by_cases h4 : getCell r 4 = c.region
          · simp [h4]
          · simp [h4]
  | true =>
      rw [jsStrictEq_of_truthy _ _ hpt]
      by_cases h3 : getCell r 3 = c.projectType
      · cases hrg : truthy c.region with
        | false => simp [h3]
        | true =>
            rw [jsStrictEq_of_truthy _ _ hrg]
            by_cases h4 : getCell r 4 = c.region
            · simp [h3, h4]
            · simp [h3, h4]
      · simp [h3]

/-- C5: `getDataByFilter` returns exactly the data rows, in store order,
satisfying the conjunction of the present criteria: exact match on
`projectType` and on `region` when present, and the inclusive date range
when both `startDate` and `endDate` are present (a `startDate` alone
imposes no constraint); stated for criteria and rows whose date cells
parse whenever a date range is present. -/
theorem c5_filter_anded_criteria (c : Criteria) (sheetRows : List Row)
    (hdate : truthy c.startDate = true → truthy c.endDate = true →
      (dateMillis c.startDate).isFinite = true ∧ (dateMillis c.endDate).isFinite = true ∧
      ∀ r ∈ (getValues sheetRows).drop 1, (dateMillis (getCell r 6)).isFinite = true) :
    getDataByFilter c (some sheetRows) =
      ((getValues sheetRows).drop 1).filter (specKeep c) := by
  unfold getDataByFilter
  apply List.filter_congr
  intro r hr
  exact keepRow_eq_specKeep c r
    (fun hs he => ⟨(hdate hs he).1, (hdate hs he).2.1, (hdate hs he).2.2 r hr⟩)

/-- Witness for C5: a `projectType` filter plus a date range over the two
example rows keeps exactly the in-range Development row. -/
theorem c5_filter_anded_criteria_witness :
    getDataByFilter ⟨.str "Development", .undefined, .str "2024-01-01", .str "2024-01-31"⟩
        (some [headerRow, exampleRow1, exampleRow2]) =
      ((getValues [headerRow, exampleRow1, exampleRow2]).drop 1).filter
        (specKeep ⟨.str "Development", .undefined, .str "2024-01-01", .str "2024-01-31"⟩) ∧
    ((getValues [headerRow, exampleRow1, exampleRow2]).drop 1).filter
        (specKeep ⟨.str "Development", .undefined, .str "2024-01-01", .str "2024-01-31"⟩) =
      [exampleRow1] :=
  ⟨c5_filter_anded_criteria _ _ (by decide), by decide⟩

/-- C5 counterexample: with a date range present, a data row whose date
cell is unparseable is returned by `getDataByFilter` (every `NaN`
comparison is false, so neither bound excludes it) even though its date
does not lie in the inclusive range, so the filter does not return
exactly the rows satisfying the claim's conjunction. -/
theorem c5_unparseable_date_row_returned :
    getDataByFilter ⟨.undefined, .undefined, .str "2024-01-01", .str "2024-01-31"⟩
        (some [headerRow,
          [Cell.str "ORD-001", .str "PRJ-001", .str "Site", .str "Development",
           .str "NA", .num (.fin 15000), .str "garbage"]]) =
      [[Cell.str "ORD-001", .str "PRJ-001", .str "Site", .str "Development",
        .str "NA", .num (.fin 15000), .str "garbage"]] ∧
    specKeep ⟨.undefined, .undefined, .str "2024-01-01", .str "2024-01-31"⟩
        [Cell.str "ORD-001", .str "PRJ-001", .str "Site", .str "Development",
         .str "NA", .num (.fin 15000), .str "garbage"] = false :=
  ⟨by decide, by decide⟩
